import Mathlib

/-!
Verification of the STKansys repository (two near-duplicate STK automation
scripts, `Satellite Network Analysis33.py` and `Satellite Network Analysis88.py`).

The scripts drive an external host application; their own logic is embedded
here: the great-circle destination arithmetic over the real numbers, and the
list/record manipulation (route construction, access-pair enumeration,
interval extraction with exception fallbacks, CSV row construction, report
generation) as executable functions over lists.
-/

namespace STKansys

noncomputable section GreatCircle

/-- Embedding of `np.radians` and `math.radians`: degrees to radians. -/
def radians (x : Real) : Real := x * Real.pi / 180

/-- Embedding of `np.degrees` and `math.degrees`: radians to degrees. -/
def degrees (x : Real) : Real := x * 180 / Real.pi

/-- Embedding of `math.atan2 y x` and `np.arctan2 y x` on real numbers: the angle of the
point `(x, y)` in `(-pi, pi]`, with `atan2 0 0 = 0`. -/
def atan2 (y x : Real) : Real :=
  if 0 < x then Real.arctan (y / x)
  else if x < 0 then
    (if 0 ≤ y then Real.arctan (y / x) + Real.pi else Real.arctan (y / x) - Real.pi)
  else
    (if 0 < y then Real.pi / 2 else if y < 0 then -(Real.pi / 2) else 0)

/-- Embedding of `_calculate_destination` from `Satellite Network Analysis33.py`
(the numpy version, lines 159-176): great-circle destination from
`(lat1, lon1)` after `distance_km` along `bearing_deg`, on a sphere of
radius `R = 6371` km. -/
def calculate_destination33 (lat1 lon1 distance_km bearing_deg : Real) : Real × Real :=
  let R : Real := 6371
  let lat1_rad := radians lat1
  let lon1_rad := radians lon1
  let bearing_rad := radians bearing_deg
  let lat2_rad := Real.arcsin (Real.sin lat1_rad * Real.cos (distance_km / R) +
    Real.cos lat1_rad * Real.sin (distance_km / R) * Real.cos bearing_rad)
  let lon2_rad := lon1_rad + atan2
    (Real.sin bearing_rad * Real.sin (distance_km / R) * Real.cos lat1_rad)
    (Real.cos (distance_km / R) - Real.sin lat1_rad * Real.sin lat2_rad)
  (degrees lat2_rad, degrees lon2_rad)

/-- Embedding of `_calculate_destination` from `Satellite Network Analysis88.py`
(the math-module version, lines 167-195), with its let-bound
`d_R = distance_km / R` and `R = 6371.0`. -/
def calculate_destination88 (lat1 lon1 distance_km bearing_deg : Real) : Real × Real :=
  let R : Real := 6371.0
  let lat1_rad := radians lat1
  let lon1_rad := radians lon1
  let bearing_rad := radians bearing_deg
  let d_R := distance_km / R
  let lat2_rad := Real.arcsin (Real.sin lat1_rad * Real.cos d_R +
    Real.cos lat1_rad * Real.sin d_R * Real.cos bearing_rad)
  let lon2_rad := lon1_rad + atan2
    (Real.sin bearing_rad * Real.sin d_R * Real.cos lat1_rad)
    (Real.cos d_R - Real.sin lat1_rad * Real.sin lat2_rad)
  let lat2 := degrees lat2_rad
  let lon2 := degrees lon2_rad
  (lat2, lon2)

/-- The closed-form great-circle destination exactly as the specification
states it: `lat2 = degrees(asin(sin(lat1_rad)*cos(d/R) +
cos(lat1_rad)*sin(d/R)*cos(b_rad)))` and `lon2 = degrees(lon1_rad +
atan2(sin(b_rad)*sin(d/R)*cos(lat1_rad), cos(d/R) -
sin(lat1_rad)*sin(lat2_rad)))` with `R = 6371`. -/
def destinationSpecFormula (lat1 lon1 d b : Real) : Real × Real :=
  let R : Real := 6371
  let lat1_rad := radians lat1
  let lon1_rad := radians lon1
  let b_rad := radians b
  let lat2_rad := Real.arcsin (Real.sin lat1_rad * Real.cos (d / R) +
    Real.cos lat1_rad * Real.sin (d / R) * Real.cos b_rad)
  let lon2_rad := lon1_rad + atan2
    (Real.sin b_rad * Real.sin (d / R) * Real.cos lat1_rad)
    (Real.cos (d / R) - Real.sin lat1_rad * Real.sin lat2_rad)
  (degrees lat2_rad, degrees lon2_rad)

end GreatCircle

lemma dest33_eq_spec (lat1 lon1 d b : Real) :
    calculate_destination33 lat1 lon1 d b = destinationSpecFormula lat1 lon1 d b := rfl

lemma sixThousand : (6371.0 : Real) = (6371 : Real) := by norm_num

lemma dest88_eq_spec (lat1 lon1 d b : Real) :
    calculate_destination88 lat1 lon1 d b = destinationSpecFormula lat1 lon1 d b := by
  unfold calculate_destination88 destinationSpecFormula
  rw [sixThousand]

lemma degrees_radians (x : Real) : degrees (radians x) = x := by
  unfold degrees radians
  field_simp

lemma dest33_zero_distance (lat1 lon1 b : Real)
    (h1 : -90 < lat1) (h2 : lat1 < 90) :
    calculate_destination33 lat1 lon1 0 b = (lat1, lon1) := by
  have hpi := Real.pi_pos
  have hl1 : -(Real.pi / 2) < radians lat1 := by
    unfold radians; nlinarith
  have hl2 : radians lat1 < Real.pi / 2 := by
    unfold radians; nlinarith
  have hsin : Real.arcsin (Real.sin (radians lat1)) = radians lat1 :=
    Real.arcsin_sin (le_of_lt hl1) (le_of_lt hl2)
  unfold calculate_destination33
  simp only [zero_div, Real.cos_zero, Real.sin_zero, mul_one, mul_zero, zero_mul, add_zero]
  rw [hsin]
  have hx : 0 < 1 - Real.sin (radians lat1) * Real.sin (radians lat1) := by
    have hcos : 0 < Real.cos (radians lat1) :=
      Real.cos_pos_of_mem_Ioo ⟨hl1, hl2⟩
    nlinarith [Real.sin_sq_add_cos_sq (radians lat1)]
  have hat : atan2 0 (1 - Real.sin (radians lat1) * Real.sin (radians lat1)) = 0 := by
    unfold atan2
    rw [if_pos hx]
    simp [Real.arctan_zero]
  rw [hat, add_zero, degrees_radians, degrees_radians]

/-- C1: for every starting latitude in `(-90, 90)`, longitude, bearing and
distance `d ≥ 0`, both scripts' `_calculate_destination` return exactly the
closed-form great-circle destination stated in the specification, on a
sphere of radius `R = 6371` km. -/
theorem calculate_destination_is_spec_closed_form (lat1 lon1 d b : Real)
    (h1 : -90 < lat1) (h2 : lat1 < 90) (hd : 0 ≤ d) :
    calculate_destination33 lat1 lon1 d b = destinationSpecFormula lat1 lon1 d b ∧
    calculate_destination88 lat1 lon1 d b = destinationSpecFormula lat1 lon1 d b :=
  ⟨dest33_eq_spec lat1 lon1 d b, dest88_eq_spec lat1 lon1 d b⟩

/-- Witness for C1 at the concrete input `(45, 7, 100, 30)`. -/
theorem calculate_destination_is_spec_closed_form_witness :
    ((-90 : Real) < 45 ∧ (45 : Real) < 90 ∧ (0 : Real) ≤ 100) ∧
    (calculate_destination33 45 7 100 30 = destinationSpecFormula 45 7 100 30 ∧
     calculate_destination88 45 7 100 30 = destinationSpecFormula 45 7 100 30) :=
  ⟨⟨by norm_num, by norm_num, by norm_num⟩,
   calculate_destination_is_spec_closed_form 45 7 100 30
     (by norm_num) (by norm_num) (by norm_num)⟩

/-- C2: the numpy-based `_calculate_destination` of
`Satellite Network Analysis33.py` and the math-module-based one of
`Satellite Network Analysis88.py` compute equal `(lat2, lon2)` results for
every input. -/
theorem calculate_destination_33_88_agree (lat1 lon1 d b : Real) :
    calculate_destination33 lat1 lon1 d b = calculate_destination88 lat1 lon1 d b :=
  (dest33_eq_spec lat1 lon1 d b).trans (dest88_eq_spec lat1 lon1 d b).symm

/-- C10: zero-distance identity: for every latitude strictly between `-90`
and `90` degrees, `_calculate_destination(lat1, lon1, 0, b)` returns exactly
`(lat1, lon1)`, in both scripts. -/
theorem calculate_destination_zero_distance_identity (lat1 lon1 b : Real)
    (h1 : -90 < lat1) (h2 : lat1 < 90) :
    calculate_destination33 lat1 lon1 0 b = (lat1, lon1) ∧
    calculate_destination88 lat1 lon1 0 b = (lat1, lon1) :=
  ⟨dest33_zero_distance lat1 lon1 b h1 h2,
   ((dest88_eq_spec lat1 lon1 0 b).trans (dest33_eq_spec lat1 lon1 0 b).symm).trans
     (dest33_zero_distance lat1 lon1 b h1 h2)⟩

/-- Witness for C10 at the concrete input `(10, 20, 0, 30)`. -/
theorem calculate_destination_zero_distance_identity_witness :
    ((-90 : Real) < 10 ∧ (10 : Real) < 90) ∧
    (calculate_destination33 10 20 0 30 = (10, 20) ∧
     calculate_destination88 10 20 0 30 = (10, 20)) :=
  ⟨⟨by norm_num, by norm_num⟩,
   calculate_destination_zero_distance_identity 10 20 30 (by norm_num) (by norm_num)⟩

/-! ## Aircraft routes (`create_aircraft`, both scripts) -/

/-- A route waypoint: the four attributes `create_aircraft` sets on each
waypoint object (`Latitude`, `Longitude`, `Altitude`, `Speed`). -/
structure Waypoint where
  latitude : Real
  longitude : Real
  altitude : Real
  speed : Real

/-- The waypoint list built by `create_aircraft` of
`Satellite Network Analysis33.py` (lines 118-157): the start point, then the
destination `1000` km away along the given heading. -/
noncomputable def create_aircraft_route33
    (latitude_start longitude_start altitude_m speed_mps heading_deg : Real) :
    List Waypoint :=
  let wp1 : Waypoint := ⟨latitude_start, longitude_start, altitude_m, speed_mps⟩
  let distance_km : Real := 1000
  let p := calculate_destination33 latitude_start longitude_start distance_km heading_deg
  let wp2 : Waypoint := ⟨p.1, p.2, altitude_m, speed_mps⟩
  [wp1, wp2]

/-- The waypoint list built by `create_aircraft` of
`Satellite Network Analysis88.py` (lines 126-165), which calls its own
`_calculate_destination`. -/
noncomputable def create_aircraft_route88
    (latitude_start longitude_start altitude_m speed_mps heading_deg : Real) :
    List Waypoint :=
  let wp1 : Waypoint := ⟨latitude_start, longitude_start, altitude_m, speed_mps⟩
  let distance_km : Real := 1000
  let p := calculate_destination88 latitude_start longitude_start distance_km heading_deg
  let wp2 : Waypoint := ⟨p.1, p.2, altitude_m, speed_mps⟩
  [wp1, wp2]

/-- C3: every `create_aircraft` route consists of exactly two waypoints: the
first at `(lat, lon)` and the second at the great-circle destination `1000`
km away along the heading as computed by `_calculate_destination`, both
carrying the same altitude and speed; in both scripts. -/
theorem create_aircraft_two_waypoints (lat lon alt spd heading : Real) :
    create_aircraft_route33 lat lon alt spd heading =
      [⟨lat, lon, alt, spd⟩,
       ⟨(calculate_destination33 lat lon 1000 heading).1,
        (calculate_destination33 lat lon 1000 heading).2, alt, spd⟩] ∧
    create_aircraft_route88 lat lon alt spd heading =
      [⟨lat, lon, alt, spd⟩,
       ⟨(calculate_destination88 lat lon 1000 heading).1,
        (calculate_destination88 lat lon 1000 heading).2, alt, spd⟩] ∧
    (create_aircraft_route33 lat lon alt spd heading).length = 2 ∧
    (create_aircraft_route88 lat lon alt spd heading).length = 2 :=
  ⟨rfl, rfl, rfl, rfl⟩

/-! ## Satellite creation (`create_satellite`, both scripts) -/

/-- Propagator types the scripts select on host objects. -/
inductive PropagatorKind where
  | j2Perturbation
  | greatArc
deriving DecidableEq

/-- One host-object operation performed by `create_satellite`, in program
order. Orbital-element values are rationals standing for the numeric
arguments the script passes through unchanged. -/
inductive SatAction where
  | newSatellite (name : String)
  | setPropagator (p : PropagatorKind)
  | setSizeShapeSemimajorAxis
  | setSemiMajorAxis (v : Rat)
  | setEccentricity (v : Rat)
  | setAscNodeTypeRAAN
  | setInclination (v : Rat)
  | setArgOfPerigee (v : Rat)
  | setAscNode (v : Rat)
  | setLocationTrueAnomaly
  | setTrueAnomaly (v : Rat)
  | assignState
  | propagateCall
deriving DecidableEq

/-- The host operations of `create_satellite` in
`Satellite Network Analysis33.py` (lines 55-101), in source order. -/
def create_satellite33 (name : String)
    (semi_major_axis_km eccentricity inclination_deg raan_deg arg_perigee_deg
      true_anomaly_deg : Rat) : List SatAction :=
  [SatAction.newSatellite name,
   SatAction.setPropagator PropagatorKind.j2Perturbation,
   SatAction.setSizeShapeSemimajorAxis,
   SatAction.setSemiMajorAxis semi_major_axis_km,
   SatAction.setEccentricity eccentricity,
   SatAction.setInclination inclination_deg,
   SatAction.setArgOfPerigee arg_perigee_deg,
   SatAction.setAscNode raan_deg,
   SatAction.setLocationTrueAnomaly,
   SatAction.setTrueAnomaly true_anomaly_deg,
   SatAction.assignState,
   SatAction.propagateCall]

/-- The host operations of `create_satellite` in
`Satellite Network Analysis88.py` (lines 58-109), which additionally sets
`AscNodeType` to RAAN and assigns RAAN through `AscNode.Value`. -/
def create_satellite88 (name : String)
    (semi_major_axis_km eccentricity inclination_deg raan_deg arg_perigee_deg
      true_anomaly_deg : Rat) : List SatAction :=
  [SatAction.newSatellite name,
   SatAction.setPropagator PropagatorKind.j2Perturbation,
   SatAction.setSizeShapeSemimajorAxis,
   SatAction.setSemiMajorAxis semi_major_axis_km,
   SatAction.setEccentricity eccentricity,
   SatAction.setAscNodeTypeRAAN,
   SatAction.setInclination inclination_deg,
   SatAction.setArgOfPerigee arg_perigee_deg,
   SatAction.setAscNode raan_deg,
   SatAction.setLocationTrueAnomaly,
   SatAction.setTrueAnomaly true_anomaly_deg,
   SatAction.assignState,
   SatAction.propagateCall]

/-- Is this action an assignment of one of the six classical orbital
elements? -/
def isCoeAssignment : SatAction → Bool
  | SatAction.setSemiMajorAxis _ => true
  | SatAction.setEccentricity _ => true
  | SatAction.setInclination _ => true
  | SatAction.setArgOfPerigee _ => true
  | SatAction.setAscNode _ => true
  | SatAction.setTrueAnomaly _ => true
  | _ => false

/-- Is this action a propagator-type selection? -/
def isPropagatorSelection : SatAction → Bool
  | SatAction.setPropagator _ => true
  | _ => false

/-- C7: `create_satellite` selects exactly the J2-perturbation propagator,
and the orbital-element assignments it performs before the final
`Propagate()` call are exactly the six classical orbital elements with the
argument values passed through verbatim; in both scripts. -/
theorem create_satellite_passes_coe_verbatim (name : String)
    (a e i raan argp nu : Rat) :
    ((create_satellite33 name a e i raan argp nu).filter isPropagatorSelection =
      [SatAction.setPropagator PropagatorKind.j2Perturbation] ∧
     (create_satellite33 name a e i raan argp nu).getLast? =
      some SatAction.propagateCall ∧
     (create_satellite33 name a e i raan argp nu).dropLast.filter isCoeAssignment =
      [SatAction.setSemiMajorAxis a, SatAction.setEccentricity e,
       SatAction.setInclination i, SatAction.setArgOfPerigee argp,
       SatAction.setAscNode raan, SatAction.setTrueAnomaly nu]) ∧
    ((create_satellite88 name a e i raan argp nu).filter isPropagatorSelection =
      [SatAction.setPropagator PropagatorKind.j2Perturbation] ∧
     (create_satellite88 name a e i raan argp nu).getLast? =
      some SatAction.propagateCall ∧
     (create_satellite88 name a e i raan argp nu).dropLast.filter isCoeAssignment =
      [SatAction.setSemiMajorAxis a, SatAction.setEccentricity e,
       SatAction.setInclination i, SatAction.setArgOfPerigee argp,
       SatAction.setAscNode raan, SatAction.setTrueAnomaly nu]) :=
  ⟨⟨rfl, rfl, rfl⟩, ⟨rfl, rfl, rfl⟩⟩

/-! ## Access computation (`compute_access`, both scripts) -/

/-- One host-object operation performed by `compute_access`. Assignment
actions stand for assignments the host accepted; a raised assignment leaves
no action. `usingDefaultConstraints` records the nested-except fallback of
the 88 script where both elevation assignments raised and the access is
computed with default constraints only. -/
inductive AccessAction where
  | getAccessToObject
  | enableElevationMin (minDeg : Rat)
  | setFacilityElevationAngle (minDeg : Rat)
  | setVOMinElevationAngle (minDeg : Rat)
  | usingDefaultConstraints
  | computeAccessCall
deriving DecidableEq

/-- The host operations of `compute_access` in
`Satellite Network Analysis33.py` (lines 178-196): an elevation-angle
access constraint is enabled exactly when the from-object's `ClassName` is
`"Facility"`. -/
def compute_access33 (fromClassName : String) (min_elevation_deg : Rat) :
    List AccessAction :=
  [AccessAction.getAccessToObject] ++
  (if fromClassName = "Facility" then
    [AccessAction.enableElevationMin min_elevation_deg]
   else []) ++
  [AccessAction.computeAccessCall]

/-- The host operations of `compute_access` in
`Satellite Network Analysis88.py` (lines 197-221): when the from-object is a
facility the script tries `from_object.ElevationAngleConstraint = ...`; if
the host raises (`firstAssignmentFails`) it falls back to
`from_object.VO.MinElevationAngle = ...`; if that raises too
(`secondAssignmentFails`, the nested except of lines 210-216) it prints
`Using default constraints` and no elevation constraint is applied at all.
Only assignments the host accepts appear in the trace. -/
def compute_access88 (fromClassName : String) (min_elevation_deg : Rat)
    (firstAssignmentFails secondAssignmentFails : Bool) : List AccessAction :=
  [AccessAction.getAccessToObject] ++
  (if fromClassName = "Facility" then
    (if firstAssignmentFails then
      (if secondAssignmentFails then [AccessAction.usingDefaultConstraints]
       else [AccessAction.setVOMinElevationAngle min_elevation_deg])
     else [AccessAction.setFacilityElevationAngle min_elevation_deg])
   else []) ++
  [AccessAction.computeAccessCall]

/-- Is this action an attempt to impose a minimum-elevation constraint? -/
def isElevationConstraintAction : AccessAction → Bool
  | AccessAction.enableElevationMin _ => true
  | AccessAction.setFacilityElevationAngle _ => true
  | AccessAction.setVOMinElevationAngle _ => true
  | _ => false

/-- Counterexample to C5 as stated: in the 88 script, when the from-object
is a facility but the host rejects both elevation assignments (the nested
except of lines 210-216), no elevation constraint is applied, so the
claimed applied-iff-Facility equivalence fails. -/
theorem compute_access_elevation_iff_facility_counterexample :
    ¬ (((compute_access88 "Facility" 10 true true).any
          isElevationConstraintAction = true) ↔
        ("Facility" : String) = "Facility") := by
  decide

/-- C5 (amended): in the 33 script the minimum-elevation constraint is
applied if and only if the from-object's class is `"Facility"`. In the 88
script it is applied if and only if the class is `"Facility"` and at least
one of the two elevation assignments is accepted by the host; when both
raise, the access is computed with default constraints. For any
non-facility from-object neither script ever adds an elevation
constraint. -/
theorem compute_access_elevation_iff_facility (cls : String) (m : Rat)
    (firstAssignmentFails secondAssignmentFails : Bool) :
    ((compute_access33 cls m).any isElevationConstraintAction = true ↔
      cls = "Facility") ∧
    ((compute_access88 cls m firstAssignmentFails secondAssignmentFails).any
        isElevationConstraintAction = true ↔
      (cls = "Facility" ∧
        (firstAssignmentFails = false ∨ secondAssignmentFails = false))) ∧
    (cls ≠ "Facility" →
      (compute_access88 cls m firstAssignmentFails secondAssignmentFails).filter
        isElevationConstraintAction = []) := by
  by_cases h : cls = "Facility" <;>
    cases firstAssignmentFails <;> cases secondAssignmentFails <;>
    simp [compute_access33, compute_access88, h, isElevationConstraintAction]

/-- Witness for C5 at the concrete from-classes `"Facility"` (both
assignments rejected, and first accepted) and `"Satellite"`. -/
theorem compute_access_elevation_iff_facility_witness :
    (((compute_access33 "Facility" 10).any isElevationConstraintAction = true) ↔
      ("Facility" : String) = "Facility") ∧
    (((compute_access88 "Facility" 10 true true).any
        isElevationConstraintAction = true) ↔
      (("Facility" : String) = "Facility" ∧
        (true = false ∨ true = false))) ∧
    (((compute_access88 "Facility" 10 false false).any
        isElevationConstraintAction = true) ↔
      (("Facility" : String) = "Facility" ∧
        (false = false ∨ false = false))) ∧
    (((compute_access88 "Satellite" 10 false false).any
        isElevationConstraintAction = true) ↔
      (("Satellite" : String) = "Facility" ∧
        (false = false ∨ false = false))) :=
  ⟨(compute_access_elevation_iff_facility "Facility" 10 true true).1,
   (compute_access_elevation_iff_facility "Facility" 10 true true).2.1,
   (compute_access_elevation_iff_facility "Facility" 10 false false).2.1,
   (compute_access_elevation_iff_facility "Satellite" 10 false false).2.1⟩

/-! ## Access-interval extraction (`get_access_intervals`, both scripts) -/

/-- One extracted access interval: the start, stop and duration values the
loop body appends per index. The type `α` stands for the opaque values the
host datasets hold. -/
structure AccessRecord (α : Type) where
  start : α
  stop : α
  dur : α
deriving DecidableEq

/-- The `for i in range(len(start_times))` loop of `get_access_intervals`:
at index `i` it reads `start_times[i]`, `stop_times[i]`, `durations[i]` and
appends a record; an out-of-range read raises, the exception is caught, and
the records accumulated so far are returned. -/
def extractLoop {α : Type} (s t d : List α) (i : Nat) : List (AccessRecord α) :=
  if h : i < s.length then
    match t[i]?, d[i]? with
    | some tv, some dv => ⟨s[i], tv, dv⟩ :: extractLoop s t d (i + 1)
    | some _, none => []
    | none, _ => []
  else []
termination_by s.length - i

/-- The external state `get_access_intervals` runs against: whether each of
the five host calls (`DataProviders.Item`, `Exec`, and the three
`GetDataSetByName(...).GetValues()` lookups) succeeds, and the three value
lists the datasets hold. -/
structure AccessDataEnv (α : Type) where
  itemOk : Bool
  execOk : Bool
  startOk : Bool
  stopOk : Bool
  durOk : Bool
  startTimes : List α
  stopTimes : List α
  durValues : List α

/-- All five host calls preceding the extraction loop succeed. -/
def AccessDataEnv.allOk {α : Type} (env : AccessDataEnv α) : Bool :=
  env.itemOk && env.execOk && env.startOk && env.stopOk && env.durOk

/-- Embedding of `get_access_intervals` (lines 198-223 of
`Satellite Network Analysis33.py`, lines 223-248 of the 88 version,
identical): the whole body is wrapped in `try/except`, and the accumulated
`intervals` list is returned on every path. -/
def get_access_intervals {α : Type} (env : AccessDataEnv α) :
    List (AccessRecord α) :=
  if env.allOk then extractLoop env.startTimes env.stopTimes env.durValues 0
  else []

lemma zip_getElem? {α β : Type} (l : List α) (l2 : List β) (i : Nat) :
    (l.zip l2)[i]? = l[i]?.bind fun a => l2[i]?.map fun b => (a, b) := by
  induction l generalizing l2 i with
  | nil => simp
  | cons x xs ih =>
    cases l2 with
    | nil => simp
    | cons y ys =>
      cases i with
      | zero => simp
      | succ j => simpa using ih ys j

lemma extractLoop_eq_zip {α : Type} (s t d : List α) :
    ∀ (n i : Nat), s.length - i ≤ n →
      extractLoop s t d i =
        ((s.drop i).zip ((t.drop i).zip (d.drop i))).map
          (fun p => ⟨p.1, p.2.1, p.2.2⟩) := by
  intro n
  induction n with
  | zero =>
    intro i hi
    have hsi : s.length ≤ i := by omega
    rw [extractLoop]
    rw [dif_neg (by omega)]
    rw [List.drop_eq_nil_of_le hsi]
    simp
  | succ n ih =>
    intro i hi
    rw [extractLoop]
    by_cases h : i < s.length
    · rw [dif_pos h]
      have hs : s.drop i = s[i] :: s.drop (i + 1) := List.drop_eq_getElem_cons h
      cases ht : t[i]? with
      | none =>
        have htl : t.length ≤ i := by
          by_contra hc
          exact absurd ht (by simp [List.getElem?_eq_getElem (by omega : i < t.length)])
        rw [List.drop_eq_nil_of_le htl, hs]
        simp
      | some tv =>
        have htl : i < t.length := by
          by_contra hc
          rw [List.getElem?_eq_none (by omega)] at ht
          exact Option.noConfusion ht
        have htd : t.drop i = t[i] :: t.drop (i + 1) := List.drop_eq_getElem_cons htl
        have htv : t[i] = tv := by
          have := List.getElem?_eq_getElem htl
          rw [ht] at this
          exact (Option.some.injEq _ _).mp this.symm
        cases hd : d[i]? with
        | none =>
          have hdl : d.length ≤ i := by
            by_contra hc
            exact absurd hd (by simp [List.getElem?_eq_getElem (by omega : i < d.length)])
          rw [List.drop_eq_nil_of_le hdl, hs, htd]
          simp
        | some dv =>
          have hdl : i < d.length := by
            by_contra hc
            rw [List.getElem?_eq_none (by omega)] at hd
            exact Option.noConfusion hd
          have hdd : d.drop i = d[i] :: d.drop (i + 1) := List.drop_eq_getElem_cons hdl
          have hdv : d[i] = dv := by
            have := List.getElem?_eq_getElem hdl
            rw [hd] at this
            exact (Option.some.injEq _ _).mp this.symm
          rw [hs, htd, hdd, htv, hdv]
          simp only [List.zip_cons_cons, List.map_cons]
          rw [ih (i + 1) (by omega)]
    · rw [dif_neg h]
      rw [List.drop_eq_nil_of_le (by omega : s.length ≤ i)]
      simp

lemma get_access_intervals_eq_zip {α : Type} (env : AccessDataEnv α)
    (h : env.allOk = true) :
    get_access_intervals env =
      ((env.startTimes.zip (env.stopTimes.zip env.durValues)).map
        (fun p => ⟨p.1, p.2.1, p.2.2⟩)) := by
  unfold get_access_intervals
  rw [if_pos h]
  simpa using extractLoop_eq_zip env.startTimes env.stopTimes env.durValues
    env.startTimes.length 0 (by omega)

/-- C6: `get_access_intervals` never raises: when any of the host calls
fails the accumulated list so far (the empty list) is returned; when they
succeed the result pairs the three datasets index by index — in particular
it has one record per `"Start Time"` entry whenever the other two datasets
are at least as long, and an out-of-range read mid-loop leaves the records
accumulated up to that index. -/
theorem get_access_intervals_spec {α : Type} (env : AccessDataEnv α) :
    (env.allOk = false → get_access_intervals env = []) ∧
    (env.allOk = true →
      (get_access_intervals env).length =
        min env.startTimes.length (min env.stopTimes.length env.durValues.length) ∧
      (∀ i : Nat, (get_access_intervals env)[i]? =
        env.startTimes[i]?.bind fun a =>
          env.stopTimes[i]?.bind fun b =>
            env.durValues[i]?.map fun c => AccessRecord.mk a b c) ∧
      (env.stopTimes.length ≥ env.startTimes.length →
       env.durValues.length ≥ env.startTimes.length →
       (get_access_intervals env).length = env.startTimes.length)) := by
  constructor
  · intro h
    unfold get_access_intervals
    rw [h]
    simp
  · intro h
    have hz := get_access_intervals_eq_zip env h
    refine ⟨?_, ?_, ?_⟩
    · rw [hz]
      simp [Nat.min_assoc]
    · intro i
      rw [hz]
      rw [List.getElem?_map, zip_getElem?, zip_getElem?]
      cases env.startTimes[i]? <;> cases env.stopTimes[i]? <;>
        cases env.durValues[i]? <;> simp
    · intro h1 h2
      rw [hz]
      simp only [List.length_map, List.length_zip]
      omega

/-- A concrete environment for the C6 witness: all host calls succeed and
the three datasets have two entries each. -/
def sampleEnv : AccessDataEnv Nat :=
  ⟨true, true, true, true, true, [1, 2], [3, 4], [5, 6]⟩

/-- Witness for C6 at `sampleEnv`. -/
theorem get_access_intervals_spec_witness :
    sampleEnv.allOk = true ∧ (get_access_intervals sampleEnv).length = 2 :=
  ⟨rfl, ((get_access_intervals_spec sampleEnv).2 rfl).2.2 (by decide) (by decide)⟩

/-! ## Network analysis (`analyze_network`, both scripts) -/

/-- Translation of `analyze_network` (lines 225-275 of the 33 version,
lines 250-300 of the 88 version, identical): three nested loops over the
Cartesian products satellites x ground stations, satellites x aircraft and
ground stations x aircraft, writing one keyed result per pair in order.
`intervalsFor from to` stands for the externally computed intervals of
`get_access_intervals(compute_access(from, to))`; the written key joins the
instance names with a hyphen. -/
def analyze_network {α : Type} (sats gss acs : List String)
    (intervalsFor : String → String → List (AccessRecord α)) :
    List (String × List (AccessRecord α)) :=
  (sats.flatMap fun sat => gss.map fun gs => (sat ++ "-" ++ gs, intervalsFor gs sat)) ++
  (sats.flatMap fun sat => acs.map fun ac => (sat ++ "-" ++ ac, intervalsFor ac sat)) ++
  (gss.flatMap fun gs => acs.map fun ac => (ac ++ "-" ++ gs, intervalsFor gs ac))

lemma sum_map_const {β : Type} (l : List β) (c : Nat) :
    (l.map fun _ => c).sum = l.length * c := by
  induction l with
  | nil => simp
  | cons x xs ih => simp [ih, Nat.succ_mul, Nat.add_comm]

lemma analyze_network_keys_eq {α : Type} (sats gss acs : List String)
    (intervalsFor : String → String → List (AccessRecord α)) :
    (analyze_network sats gss acs intervalsFor).map Prod.fst =
      (sats.flatMap fun sat => gss.map fun gs => sat ++ "-" ++ gs) ++
      (sats.flatMap fun sat => acs.map fun ac => sat ++ "-" ++ ac) ++
      (gss.flatMap fun gs => acs.map fun ac => ac ++ "-" ++ gs) := by
  simp [analyze_network, List.map_flatMap, Function.comp_def]

/-- C4: `analyze_network` computes one access result per element of the
three Cartesian products, its result contains an entry keyed
`sat ++ "-" ++ gs`, `sat ++ "-" ++ aircraft`, `aircraft ++ "-" ++ gs`
respectively for every pair, and every key produced is of one of these
three forms. -/
theorem analyze_network_pairs {α : Type} (sats gss acs : List String)
    (intervalsFor : String → String → List (AccessRecord α)) :
    (analyze_network sats gss acs intervalsFor).length =
      sats.length * gss.length + sats.length * acs.length +
        gss.length * acs.length ∧
    (∀ sat ∈ sats, ∀ gs ∈ gss,
      (sat ++ "-" ++ gs) ∈ (analyze_network sats gss acs intervalsFor).map Prod.fst) ∧
    (∀ sat ∈ sats, ∀ ac ∈ acs,
      (sat ++ "-" ++ ac) ∈ (analyze_network sats gss acs intervalsFor).map Prod.fst) ∧
    (∀ gs ∈ gss, ∀ ac ∈ acs,
      (ac ++ "-" ++ gs) ∈ (analyze_network sats gss acs intervalsFor).map Prod.fst) ∧
    (∀ k ∈ (analyze_network sats gss acs intervalsFor).map Prod.fst,
      (∃ sat ∈ sats, ∃ gs ∈ gss, k = sat ++ "-" ++ gs) ∨
      (∃ sat ∈ sats, ∃ ac ∈ acs, k = sat ++ "-" ++ ac) ∨
      (∃ gs ∈ gss, ∃ ac ∈ acs, k = ac ++ "-" ++ gs)) := by
  refine ⟨?_, ?_, ?_, ?_, ?_⟩
  · simp only [analyze_network, List.length_append, List.length_flatMap,
      Function.comp_def, List.length_map]
    rw [sum_map_const, sum_map_const, sum_map_const]
  · intro sat hsat gs hgs
    rw [analyze_network_keys_eq]
    simp only [List.mem_append, List.mem_flatMap, List.mem_map]
    exact Or.inl (Or.inl ⟨sat, hsat, gs, hgs, rfl⟩)
  · intro sat hsat ac hac
    rw [analyze_network_keys_eq]
    simp only [List.mem_append, List.mem_flatMap, List.mem_map]
    exact Or.inl (Or.inr ⟨sat, hsat, ac, hac, rfl⟩)
  · intro gs hgs ac hac
    rw [analyze_network_keys_eq]
    simp only [List.mem_append, List.mem_flatMap, List.mem_map]
    exact Or.inr ⟨gs, hgs, ac, hac, rfl⟩
  · intro k hk
    rw [analyze_network_keys_eq] at hk
    simp only [List.mem_append, List.mem_flatMap, List.mem_map] at hk
    rcases hk with (⟨sat, hsat, gs, hgs, hkey⟩ | ⟨sat, hsat, ac, hac, hkey⟩) |
      ⟨gs, hgs, ac, hac, hkey⟩
    · exact Or.inl ⟨sat, hsat, gs, hgs, hkey.symm⟩
    · exact Or.inr (Or.inl ⟨sat, hsat, ac, hac, hkey.symm⟩)
    · exact Or.inr (Or.inr ⟨gs, hgs, ac, hac, hkey.symm⟩)

/-- An access oracle returning no intervals, for the C4 witness. -/
def noIntervals : String → String → List (AccessRecord Nat) := fun _ _ => []

/-- Witness for C4 on one satellite, one ground station and one aircraft. -/
theorem analyze_network_pairs_witness :
    (analyze_network ["S1"] ["G1"] ["A1"] noIntervals).length = 3 :=
  (analyze_network_pairs ["S1"] ["G1"] ["A1"] noIntervals).1.trans (by norm_num)

/-! ## CSV export (`export_results_to_csv`, both scripts) -/

/-- One CSV data row: the four-column record appended per interval. -/
structure CsvRow (α : Type) where
  link : String
  start : α
  stop : α
  dur : α
deriving DecidableEq

/-- The column names of the exported CSV, as the source dict keys. -/
def csvColumns : List String :=
  ["Link", "Start Time", "Stop Time", "Duration (sec)"]

/-- Translation of the row-building loop of `export_results_to_csv`
(lines 277-295 of the 33 version, lines 302-329 of the 88 version): one row
per interval of each link, in order. -/
def export_rows {α : Type} (results : List (String × List (AccessRecord α))) :
    List (CsvRow α) :=
  results.flatMap fun p => p.2.map fun iv => ⟨p.1, iv.start, iv.stop, iv.dur⟩

/-- C8: `export_results_to_csv` writes exactly one data row per access
interval: the row count is the sum over links of the interval counts, each
row holds the link name with that interval's start, stop and duration, and
the columns are `Link`, `Start Time`, `Stop Time`, `Duration (sec)`. -/
theorem export_results_one_row_per_interval {α : Type}
    (results : List (String × List (AccessRecord α))) :
    (export_rows results).length = (results.map fun p => p.2.length).sum ∧
    (∀ r : CsvRow α, r ∈ export_rows results ↔
      ∃ link ivs, (link, ivs) ∈ results ∧
        ∃ iv ∈ ivs, r = ⟨link, iv.start, iv.stop, iv.dur⟩) ∧
    csvColumns = ["Link", "Start Time", "Stop Time", "Duration (sec)"] := by
  refine ⟨?_, ?_, rfl⟩
  · simp [export_rows, List.length_flatMap, Function.comp_def]
  · intro r
    simp only [export_rows, List.mem_flatMap, List.mem_map]
    constructor
    · rintro ⟨p, hp, iv, hiv, heq⟩
      exact ⟨p.1, p.2, by simpa using hp, iv, hiv, heq.symm⟩
    · rintro ⟨link, ivs, hmem, iv, hiv, heq⟩
      exact ⟨(link, ivs), hmem, iv, hiv, heq.symm⟩

/-- Concrete results for the C8 witness: one link with one interval and one
link with none. -/
def sampleResults : List (String × List (AccessRecord Nat)) :=
  [("L1", [⟨1, 2, 3⟩]), ("L2", [])]

/-- Witness for C8 at `sampleResults`. -/
theorem export_results_one_row_per_interval_witness :
    (export_rows sampleResults).length = 1 :=
  (export_results_one_row_per_interval sampleResults).1.trans (by decide)

/-! ## Report generation (`generate_report`, both scripts) -/

/-- Python float division: raises `ZeroDivisionError` on a zero
denominator, so it is embedded as an optional value. -/
def pythonDiv (x y : Rat) : Option Rat := if y = 0 then none else some (x / y)

/-- The per-link report lines `generate_report` can write. -/
inductive ReportLine where
  | linkHeader (link : String)
  | numPeriods (n : Nat)
  | totalTime (seconds hours : Rat)
  | averageAccessDur (avg : Rat)
  | noAccessFound
deriving DecidableEq

/-- The per-link body of the report loop of `generate_report` (lines
349-358 of the 33 version, lines 401-410 of the 88 version): on a non-empty
interval list it writes the period count, the total (with the hours value
`total/3600`) and the average `total/len(intervals)`; on an empty list it
writes the no-access line. The source tests `if intervals:` for
non-emptiness. -/
def reportLinkLines (link : String) (ivs : List (AccessRecord Rat)) :
    Option (List ReportLine) :=
  if ivs = [] then some [ReportLine.linkHeader link, ReportLine.noAccessFound]
  else
    (pythonDiv ((ivs.map fun iv => iv.dur).sum) 3600).bind fun hours =>
      (pythonDiv ((ivs.map fun iv => iv.dur).sum) (ivs.length : Rat)).map fun avg =>
        [ReportLine.linkHeader link, ReportLine.numPeriods ivs.length,
         ReportLine.totalTime ((ivs.map fun iv => iv.dur).sum) hours,
         ReportLine.averageAccessDur avg]

/-- The whole report body: the per-link blocks written in order, failing at
the first link whose lines raise (a division by zero would abort the loop,
so the embedding propagates it). -/
def generate_report : List (String × List (AccessRecord Rat)) →
    Option (List ReportLine)
  | [] => some []
  | p :: rest =>
    (reportLinkLines p.1 p.2).bind fun block =>
      (generate_report rest).map fun restLines => block ++ restLines

lemma reportLinkLines_nonempty (link : String) (ivs : List (AccessRecord Rat))
    (h : ivs ≠ []) :
    reportLinkLines link ivs =
      some [ReportLine.linkHeader link, ReportLine.numPeriods ivs.length,
        ReportLine.totalTime ((ivs.map fun iv => iv.dur).sum)
          (((ivs.map fun iv => iv.dur).sum) / 3600),
        ReportLine.averageAccessDur
          (((ivs.map fun iv => iv.dur).sum) / (ivs.length : Rat))] := by
  unfold reportLinkLines
  rw [if_neg h]
  have h3600 : pythonDiv ((ivs.map fun iv => iv.dur).sum) 3600 =
      some (((ivs.map fun iv => iv.dur).sum) / 3600) := by
    unfold pythonDiv
    rw [if_neg (by norm_num)]
  have hlen : pythonDiv ((ivs.map fun iv => iv.dur).sum) (ivs.length : Rat) =
      some (((ivs.map fun iv => iv.dur).sum) / (ivs.length : Rat)) := by
    unfold pythonDiv
    rw [if_neg]
    intro hc
    have hn : ivs.length = 0 := by exact_mod_cast hc
    cases ivs with
    | nil => exact h rfl
    | cons a l => simp at hn
  rw [h3600, hlen]
  rfl

lemma reportLinkLines_isSome (link : String) (ivs : List (AccessRecord Rat)) :
    ∃ l, reportLinkLines link ivs = some l := by
  by_cases h : ivs = []
  · exact ⟨_, by rw [reportLinkLines, if_pos h]⟩
  · exact ⟨_, reportLinkLines_nonempty link ivs h⟩

lemma generate_report_isSome :
    ∀ (results : List (String × List (AccessRecord Rat))),
      ∃ lines, generate_report results = some lines := by
  intro results
  induction results with
  | nil => exact ⟨[], rfl⟩
  | cons p rest ih =>
    obtain ⟨block, hb⟩ := reportLinkLines_isSome p.1 p.2
    obtain ⟨restLines, hr⟩ := ih
    exact ⟨block ++ restLines, by rw [generate_report, hb, hr]; rfl⟩

/-- C9: the divisions of `generate_report` are evaluated only on the branch
where the link's interval list is non-empty, so division by zero is
unreachable for every results dictionary: the report always succeeds, an
empty interval list produces the no-access line, and a non-empty one
produces the total and average lines with non-zero denominators. -/
theorem generate_report_no_division_by_zero
    (results : List (String × List (AccessRecord Rat))) :
    (∃ lines, generate_report results = some lines) ∧
    (∀ link (ivs : List (AccessRecord Rat)), ivs = [] →
      reportLinkLines link ivs =
        some [ReportLine.linkHeader link, ReportLine.noAccessFound]) ∧
    (∀ link (ivs : List (AccessRecord Rat)), ivs ≠ [] →
      reportLinkLines link ivs =
        some [ReportLine.linkHeader link, ReportLine.numPeriods ivs.length,
          ReportLine.totalTime ((ivs.map fun iv => iv.dur).sum)
            (((ivs.map fun iv => iv.dur).sum) / 3600),
          ReportLine.averageAccessDur
            (((ivs.map fun iv => iv.dur).sum) / (ivs.length : Rat))]) := by
  refine ⟨?_, ?_, ?_⟩
  · exact generate_report_isSome results
  · intro link ivs h
    rw [reportLinkLines, if_pos h]
  · exact fun link ivs h => reportLinkLines_nonempty link ivs h

/-- Concrete results for the C9 witness. -/
def sampleReportInput : List (String × List (AccessRecord Rat)) :=
  [("L1", [⟨1, 2, 3⟩]), ("L2", [])]

/-- Witness for C9 at `sampleReportInput`. -/
theorem generate_report_no_division_by_zero_witness :
    (generate_report sampleReportInput).isSome = true := by
  obtain ⟨l, hl⟩ := (generate_report_no_division_by_zero sampleReportInput).1
  rw [hl]
  rfl

end STKansys
